import Mathlib

/-!
Verification of the multicopter dynamics and flight controller of
`bevy_multicopter` (src/src/lib.rs and src/examples/simulation.rs).

Machine floats (`f32`) are embedded as real numbers; the glam vector and
matrix operations used by the source are reproduced on explicit
three-component structures.  The orientation of the vehicle, which the
source stores as a quaternion and applies by quaternion rotation, is
embedded as the corresponding 3x3 matrix acting by `Mat3.mulVec`.
-/

set_option maxHeartbeats 1000000

noncomputable section

namespace Multicopter

/-- A three-component vector over the reals, embedding glam `Vec3`. -/
structure Vec3 where
  x : ℝ
  y : ℝ
  z : ℝ

namespace Vec3

/-- Componentwise addition, `Vec3 + Vec3` in glam. -/
def add (a b : Vec3) : Vec3 := ⟨a.x + b.x, a.y + b.y, a.z + b.z⟩

/-- Componentwise subtraction, `Vec3 - Vec3` in glam. -/
def sub (a b : Vec3) : Vec3 := ⟨a.x - b.x, a.y - b.y, a.z - b.z⟩

/-- Scalar multiplication, `f32 * Vec3` in glam. -/
def smul (c : ℝ) (a : Vec3) : Vec3 := ⟨c * a.x, c * a.y, c * a.z⟩

/-- glam adds a scalar to a vector componentwise (`impl Add<f32> for Vec3`);
this is the operation used by the drag-torque line of `state_derivative`. -/
def addScalar (a : Vec3) (c : ℝ) : Vec3 := ⟨a.x + c, a.y + c, a.z + c⟩

/-- The cross product, `Vec3::cross` in glam. -/
def cross (a b : Vec3) : Vec3 :=
  ⟨a.y * b.z - a.z * b.y, a.z * b.x - a.x * b.z, a.x * b.y - a.y * b.x⟩

/-- The dot product, `Vec3::dot` in glam. -/
def dot (a b : Vec3) : ℝ := a.x * b.x + a.y * b.y + a.z * b.z

/-- The zero vector, `Vec3::ZERO`. -/
def zero : Vec3 := ⟨0, 0, 0⟩

instance : Add Vec3 := ⟨add⟩
instance : Sub Vec3 := ⟨sub⟩
instance : Zero Vec3 := ⟨zero⟩
instance : SMul ℝ Vec3 := ⟨smul⟩

theorem add_def (a b : Vec3) : a + b = ⟨a.x + b.x, a.y + b.y, a.z + b.z⟩ := rfl
theorem sub_def (a b : Vec3) : a - b = ⟨a.x - b.x, a.y - b.y, a.z - b.z⟩ := rfl
theorem smul_def (c : ℝ) (a : Vec3) : c • a = ⟨c * a.x, c * a.y, c * a.z⟩ := rfl
theorem zero_def : (0 : Vec3) = ⟨0, 0, 0⟩ := rfl

/-- Summing a list of vectors, `Iterator::sum` over `Vec3` in Rust. -/
def lsum (l : List Vec3) : Vec3 := l.foldr add zero

end Vec3

/-- A 3x3 real matrix (row-major entries), embedding glam `Mat3`. -/
structure Mat3 where
  m00 : ℝ
  m01 : ℝ
  m02 : ℝ
  m10 : ℝ
  m11 : ℝ
  m12 : ℝ
  m20 : ℝ
  m21 : ℝ
  m22 : ℝ

namespace Mat3

/-- Matrix–vector product, `Mat3 * Vec3` in glam. -/
def mulVec (m : Mat3) (v : Vec3) : Vec3 :=
  ⟨m.m00 * v.x + m.m01 * v.y + m.m02 * v.z,
   m.m10 * v.x + m.m11 * v.y + m.m12 * v.z,
   m.m20 * v.x + m.m21 * v.y + m.m22 * v.z⟩

/-- The determinant, `Mat3::determinant` in glam. -/
def det (m : Mat3) : ℝ :=
  m.m00 * (m.m11 * m.m22 - m.m12 * m.m21)
    - m.m01 * (m.m10 * m.m22 - m.m12 * m.m20)
    + m.m02 * (m.m10 * m.m21 - m.m11 * m.m20)

/-- The inverse, `Mat3::inverse` in glam: the adjugate scaled by the
reciprocal of the determinant.  (For a singular matrix glam produces
non-finite garbage rather than failing; over ℝ the reciprocal of zero is
zero, and no claim depends on the value at a singular matrix.) -/
def inverse (m : Mat3) : Mat3 :=
  let d := m.det
  ⟨(m.m11 * m.m22 - m.m12 * m.m21) / d,
   (m.m02 * m.m21 - m.m01 * m.m22) / d,
   (m.m01 * m.m12 - m.m02 * m.m11) / d,
   (m.m12 * m.m20 - m.m10 * m.m22) / d,
   (m.m00 * m.m22 - m.m02 * m.m20) / d,
   (m.m02 * m.m10 - m.m00 * m.m12) / d,
   (m.m10 * m.m21 - m.m11 * m.m20) / d,
   (m.m01 * m.m20 - m.m00 * m.m21) / d,
   (m.m00 * m.m11 - m.m01 * m.m10) / d⟩

/-- The identity matrix, `Mat3::IDENTITY`. -/
def identity : Mat3 := ⟨1, 0, 0, 0, 1, 0, 0, 0, 1⟩

/-- Scaling every entry, `f32 * Mat3`. -/
def smul (c : ℝ) (m : Mat3) : Mat3 :=
  ⟨c * m.m00, c * m.m01, c * m.m02,
   c * m.m10, c * m.m11, c * m.m12,
   c * m.m20, c * m.m21, c * m.m22⟩

/-- The zero matrix, `Mat3::ZERO` (used as a concrete singular matrix). -/
def zero : Mat3 := ⟨0, 0, 0, 0, 0, 0, 0, 0, 0⟩

end Mat3

/-- `PropellerInfo` from src/src/lib.rs: static per-rotor configuration. -/
structure PropellerInfo where
  /-- the body frame position of this propeller -/
  position : Vec3
  direction : Vec3
  thrust_constant : ℝ
  drag_constant : ℝ

/-- `QuadcopterDerivatives` from src/src/lib.rs. -/
structure QuadcopterDerivatives where
  acceleration : Vec3
  angular_acceleration : Vec3

/-- The `Multicopter` component from src/src/lib.rs. -/
structure Copter where
  inverse_inertia : Mat3
  /-- the 3x3 inertia matrix, each element in kg * m^2 -/
  inertia : Mat3
  /-- the inverse mass of the quadcopter, 1/kg -/
  inverse_mass : ℝ
  propellers : List PropellerInfo

/-- The per-propeller thrust force of `state_derivative`:
`propeller.thrust_constant * omega.powi(2) * propeller.direction`. -/
def propForce (p : PropellerInfo) (omega : ℝ) : Vec3 :=
  (p.thrust_constant * omega ^ 2) • p.direction

/-- The list `forces` built inside `state_derivative`. -/
def propForces (props : List PropellerInfo) (inputs : List ℝ) : List Vec3 :=
  (props.zip inputs).map fun pi => propForce pi.1 pi.2

/-- `thrust`, the net thrust vector of the copter inside `state_derivative`. -/
def netThrust (props : List PropellerInfo) (inputs : List ℝ) : Vec3 :=
  Vec3.lsum (propForces props inputs)

/-- One summand of `propeller_torque`: the torque due to the thrust of the
propeller (`position.cross(force)`) plus the drag term
`propeller.drag_constant * omega.powi(2)`, which — `force` being a `Vec3`
and the drag term an `f32` — glam adds to every component. -/
def propTorqueTerm (p : PropellerInfo) (force : Vec3) (omega : ℝ) : Vec3 :=
  (p.position.cross force).addScalar (p.drag_constant * omega ^ 2)

/-- `propeller_torque`, the net torque due to the propellers inside
`state_derivative`. -/
def netPropTorque (props : List PropellerInfo) (inputs : List ℝ) : Vec3 :=
  Vec3.lsum (((props.zip (propForces props inputs)).zip inputs).map
    fun pfo => propTorqueTerm pfo.1.1 pfo.1.2 pfo.2)

/-- The gyroscopic coupling term
`angular_velocity.cross(self.inertia * angular_velocity)` subtracted from the
torque inside `state_derivative`. -/
def gyroTerm (inertia : Mat3) (angular_velocity : Vec3) : Vec3 :=
  angular_velocity.cross (inertia.mulVec angular_velocity)

/-- `Multicopter::state_derivative` from src/src/lib.rs.  The vehicle's
world orientation `quadcopter_state.rotation()` enters only through its
action on vectors, embedded here as the matrix `rotation`. -/
def state_derivative (m : Copter) (rotation : Mat3) (angular_velocity : Vec3)
    (quadcopter_control_inputs : List ℝ) (external_force external_torque : Vec3) :
    Except String QuadcopterDerivatives :=
  if quadcopter_control_inputs.length ≠ m.propellers.length then
    .error "Incorrect control input length"
  else
    .ok
      { acceleration := m.inverse_mass •
          (external_force + rotation.mulVec (netThrust m.propellers quadcopter_control_inputs))
        angular_acceleration := m.inertia.inverse.mulVec
          (external_torque +
            rotation.mulVec (netPropTorque m.propellers quadcopter_control_inputs) -
            gyroTerm m.inertia angular_velocity) }

/-- `Multicopter::new` from src/src/lib.rs.  The `assert!` on an empty
propeller list is a Rust panic, embedded as the error case; on every
non-empty list the function returns `Ok` unconditionally — the inertia
matrix is inverted without any invertibility check. -/
def new (inertia : Mat3) (mass : ℝ) (propellers : List PropellerInfo) :
    Except String Copter :=
  if propellers.isEmpty then
    .error "panic: Don't try to simulate a 0-copter"
  else
    .ok
      { inertia := inertia
        inverse_mass := mass⁻¹
        propellers := propellers
        inverse_inertia := inertia.inverse }

/-- Modelled from the spec: the `RotationDirection` enumeration that the
current library exposes (examples/simulation.rs imports it from the crate)
but that is missing from src/src/lib.rs — "enumerated {clockwise,
counter-clockwise}, determines sign of reaction torque". -/
inductive RotationDirection where
  | clockWise
  | counterClockWise

/-- Modelled from the spec: the sign a rotor's rotation direction gives its
drag reaction torque, "+1 for counter-clockwise, −1 for clockwise". -/
def RotationDirection.sign : RotationDirection → ℝ
  | .clockWise => -1
  | .counterClockWise => 1

/-- The opposite rotation direction ("flipping rotation_direction"). -/
def RotationDirection.flip : RotationDirection → RotationDirection
  | .clockWise => .counterClockWise
  | .counterClockWise => .clockWise

/-- Modelled from the spec: the signed drag reaction torque contribution of a
single rotor, "Drag reaction torque magnitude = drag_constant * ω², signed by
rotation_direction" (§4.1) — code absent from src/src/lib.rs, whose
`PropellerInfo` has no `rotation_direction` field. -/
def reactionTorque (dir : RotationDirection) (drag_constant omega : ℝ) : ℝ :=
  dir.sign * (drag_constant * omega ^ 2)

end Multicopter

namespace Simulation

open Multicopter (Vec3 Mat3)

/-- `THRUST_CONSTANT` from src/examples/simulation.rs. -/
def THRUST_CONSTANT : ℝ := 1e-6

/-- `DRAG_CONSTANT` from src/examples/simulation.rs. -/
def DRAG_CONSTANT : ℝ := 1e-7

/-- The inputs read by the `control_quadcopter` system of
src/examples/simulation.rs for one tick: the pressed state of each key it
polls, the vehicle pose and velocity, the persisted `Local` state
(`desired_altitude`, `integral_term`), the tick duration, the computed mass
and gravity.  The quaternion-derived quantities — the YXZ Euler angles, the
world-frame body-up axis `transform.local_y()`, and the inverse rotation
applied to the world angular velocity — are carried as separate fields, so
every reachable combination of them is covered. -/
structure ControlState where
  keyW : Bool
  keyS : Bool
  keyA : Bool
  keyD : Bool
  keyQ : Bool
  keyE : Bool
  keySpace : Bool
  keyCtrl : Bool
  /-- `transform.translation.y` -/
  altitude : ℝ
  /-- `linear_velocity.y` -/
  verticalVelocity : ℝ
  /-- `transform.rotation.to_euler(EulerRot::YXZ)`, first component -/
  yaw : ℝ
  /-- `transform.rotation.to_euler(EulerRot::YXZ)`, second component -/
  pitch : ℝ
  /-- `transform.rotation.to_euler(EulerRot::YXZ)`, third component -/
  roll : ℝ
  /-- the world-frame angular velocity `angular_velocity.0` -/
  angularVelocityWorld : Vec3
  /-- the matrix of `transform.rotation.inverse()` -/
  rotationInverseMat : Mat3
  /-- `transform.local_y()`, the body up axis expressed in the world frame -/
  localY : Vec3
  /-- the `desired_altitude : Local<Option<f32>>` persisted state -/
  desiredAltitude0 : Option ℝ
  /-- the `integral_term : Local<f32>` persisted state -/
  integralTerm : ℝ
  /-- `time.delta_secs()` -/
  dt : ℝ
  /-- `mass.value()` -/
  mass : ℝ
  /-- `gravity.0.y` (negative for downward gravity) -/
  gravityY : ℝ

/-- `20.0_f32.to_radians()`. -/
def twentyDegrees : ℝ := 20 * (Real.pi / 180)

/-- The body-frame angular velocity:
`transform.rotation.inverse() * angular_velocity.0`. -/
def bodyAngularVelocity (s : ControlState) : Vec3 :=
  s.rotationInverseMat.mulVec s.angularVelocityWorld

/-- `desired_pitch`: −20° while W is held, +20° while S is held. -/
def desiredPitch (s : ControlState) : ℝ :=
  (if s.keyW then -twentyDegrees else 0) + (if s.keyS then twentyDegrees else 0)

/-- `desired_roll`: −20° while D is held, +20° while A is held. -/
def desiredRoll (s : ControlState) : ℝ :=
  (if s.keyD then -twentyDegrees else 0) + (if s.keyA then twentyDegrees else 0)

/-- `desired_yaw_rate`: +1 while Q is held, −1 while E is held. -/
def desiredYawRate (s : ControlState) : ℝ :=
  (if s.keyQ then 1 else 0) + (if s.keyE then -1 else 0)

/-- The desired altitude after the first-tick latch
(`if desired_altitude.is_none() { ... current altitude }`) and the
Space/ControlLeft incremental adjustment of `dt * 2.` each. -/
def adjustedDesiredAltitude (s : ControlState) : ℝ :=
  (s.desiredAltitude0.getD s.altitude)
    + (if s.keySpace then s.dt * 2 else 0)
    - (if s.keyCtrl then s.dt * 2 else 0)

/-- `vertical_proportional_gain`. -/
def vertical_proportional_gain : ℝ := 40

/-- `vertical_derivative_gain`. -/
def vertical_derivative_gain : ℝ := 30

/-- `vertical_i_gain`: the altitude-hold integral gain, the constant `0.`. -/
def vertical_i_gain : ℝ := 0

/-- The accumulator after `*integral_term += dt * (*desired_altitude - altitude)`. -/
def newIntegralTerm (s : ControlState) : ℝ :=
  s.integralTerm + s.dt * (adjustedDesiredAltitude s - s.altitude)

/-- `desired_vertical_thrust = p_term + i_term + d_term - gravity_force`,
where `i_term` reads the freshly updated accumulator. -/
def desiredVerticalThrust (s : ControlState) : ℝ :=
  vertical_proportional_gain * (adjustedDesiredAltitude s - s.altitude)
    + vertical_i_gain * newIntegralTerm s
    + vertical_derivative_gain * (0 - s.verticalVelocity)
    - s.gravityY * s.mass

/-- `vertical_thrust_coeff = transform.local_y().dot(Vec3::Y)`. -/
def verticalThrustCoeff (s : ControlState) : ℝ := s.localY.dot ⟨0, 1, 0⟩

/-- The `needed_vertical_thrust` branch of `control_quadcopter`, as a function
of the tilt coefficient and the desired vertical thrust. -/
def neededVerticalThrustFrom (coeff desired : ℝ) : ℝ :=
  if coeff ≤ 1e-2 ∨ desired < 0 then 0 else desired / coeff

/-- `needed_vertical_thrust` for a full controller state. -/
def neededVerticalThrust (s : ControlState) : ℝ :=
  neededVerticalThrustFrom (verticalThrustCoeff s) (desiredVerticalThrust s)

/-- `angular_proportional_gain`. -/
def angular_proportional_gain : ℝ := 0.05

/-- `angular_derivative_gain`. -/
def angular_derivative_gain : ℝ := 0.01

/-- `angular_velocity_difference = Vec3{0, desired_yaw_rate, 0} - angular_velocity`
(body frame). -/
def angularVelocityDifference (s : ControlState) : Vec3 :=
  Vec3.sub ⟨0, desiredYawRate s, 0⟩ (bodyAngularVelocity s)

/-- `desired_pitch_torque = p_pitch + d_pitch`. -/
def desiredPitchTorque (s : ControlState) : ℝ :=
  angular_proportional_gain * (desiredPitch s - s.pitch)
    + angular_derivative_gain * (angularVelocityDifference s).x

/-- `desired_yaw_torque = p_yaw + d_yaw`; `desired_yaw` is latched to the
current yaw, so the proportional part is `gain * (yaw - yaw)`. -/
def desiredYawTorque (s : ControlState) : ℝ :=
  angular_proportional_gain * (s.yaw - s.yaw)
    + angular_derivative_gain * (angularVelocityDifference s).y

/-- `desired_roll_torque = p_roll + d_roll`. -/
def desiredRollTorque (s : ControlState) : ℝ :=
  angular_proportional_gain * (desiredRoll s - s.roll)
    + angular_derivative_gain * (angularVelocityDifference s).z

/-- The raw `propeller_thrust_proportions` array: the fixed mixing of the
three torque demands onto the four rotors. -/
def rawProportions (s : ControlState) : Fin 4 → ℝ :=
  ![-desiredPitchTorque s + desiredRollTorque s + desiredYawTorque s,
    -desiredPitchTorque s - desiredRollTorque s - desiredYawTorque s,
    desiredPitchTorque s + desiredRollTorque s - desiredYawTorque s,
    desiredPitchTorque s - desiredRollTorque s + desiredYawTorque s]

/-- One step of the `reduction_factor` fold:
`if proportion < -0.25 { -0.25 / proportion } else { 1. }`. -/
def reductionFor (proportion : ℝ) : ℝ :=
  if proportion < -0.25 then -0.25 / proportion else 1

/-- `reduction_factor`: the fold of `acc.min(...)` over the four proportions,
starting from `1.0`. -/
def reductionFactor (p : Fin 4 → ℝ) : ℝ :=
  min (min (min (min 1 (reductionFor (p 0))) (reductionFor (p 1)))
    (reductionFor (p 2))) (reductionFor (p 3))

/-- The post-saturation proportions:
`0.25 + proportion * reduction_factor`. -/
def scaledProportions (p : Fin 4 → ℝ) : Fin 4 → ℝ :=
  fun i => 0.25 + p i * reductionFactor p

/-- `necessary_propeller_rotation_rate = (needed_vertical_thrust / THRUST_CONSTANT).sqrt()`. -/
def necessaryPropellerRotationRate (s : ControlState) : ℝ :=
  Real.sqrt (neededVerticalThrust s / THRUST_CONSTANT)

/-- The four spin-rate commands written into `QuadcopterControls` by
`control_quadcopter`. -/
def commands (s : ControlState) : Fin 4 → ℝ :=
  fun i => necessaryPropellerRotationRate s * scaledProportions (rawProportions s) i

/-- The four propellers spawned by `setup` in src/examples/simulation.rs,
mapped onto the `PropellerInfo` of src/src/lib.rs (whose struct has no
rotation-direction field): positions (±0.05, 0, ±0.05), thrust direction
`Vec3::Y`, the two shared constants. -/
def hoverPropellers : List Multicopter.PropellerInfo :=
  [⟨⟨0.05, 0, 0.05⟩, ⟨0, 1, 0⟩, THRUST_CONSTANT, DRAG_CONSTANT⟩,
   ⟨⟨-0.05, 0, 0.05⟩, ⟨0, 1, 0⟩, THRUST_CONSTANT, DRAG_CONSTANT⟩,
   ⟨⟨0.05, 0, -0.05⟩, ⟨0, 1, 0⟩, THRUST_CONSTANT, DRAG_CONSTANT⟩,
   ⟨⟨-0.05, 0, -0.05⟩, ⟨0, 1, 0⟩, THRUST_CONSTANT, DRAG_CONSTANT⟩]

/-- `quad_mass` in `setup`, kg. -/
def quadMass : ℝ := 0.4

/-- The magnitude of avian3d's default gravity, `gravity.0.y.abs()`. -/
def gravityMag : ℝ := 9.81

/-- `hover_omega = (hover_thrust_per_prop / THRUST_CONSTANT).sqrt()` with
`hover_thrust_per_prop = quad_mass * g / 4.`. -/
def hoverOmega : ℝ := Real.sqrt (quadMass * gravityMag / 4 / THRUST_CONSTANT)

/-- The vehicle spawned by `setup`: mass 0.4 kg, inertia
`AngularInertia::new(Vec3::splat(1e-2))`, the four hover propellers. -/
def hoverCopter : Multicopter.Copter :=
  { inertia := Mat3.smul 1e-2 Mat3.identity
    inverse_mass := quadMass⁻¹
    propellers := hoverPropellers
    inverse_inertia := (Mat3.smul 1e-2 Mat3.identity).inverse }

/-- All four rotors commanded at the hover spin rate,
`QuadcopterControls([hover_omega; 4])`. -/
def hoverInputs : List ℝ := [hoverOmega, hoverOmega, hoverOmega, hoverOmega]

/-- A concrete raw-proportion vector whose first entry saturates below
−0.25. -/
def satProps : Fin 4 → ℝ := ![-0.5, 0.1, 0, 0]

/-- A single-rotor vehicle whose inertia tensor is twice the identity
(isotropic), for instantiating the gyroscopic-term property. -/
def isotropicCopter : Multicopter.Copter :=
  { inverse_inertia := (Mat3.smul 2 Mat3.identity).inverse
    inertia := Mat3.smul 2 Mat3.identity
    inverse_mass := 1
    propellers := [⟨⟨1, 0, 0⟩, ⟨0, 1, 0⟩, 1, 1⟩] }

/-- A concrete controller state: the vehicle lying on its side (body up
axis along world X, so the tilt coefficient is 0), a large positive
altitude error, all keys released. -/
def sidewaysState : ControlState :=
  { keyW := false, keyS := false, keyA := false, keyD := false
    keyQ := false, keyE := false, keySpace := false, keyCtrl := false
    altitude := 0, verticalVelocity := 0
    yaw := 0, pitch := 0, roll := 0
    angularVelocityWorld := ⟨0, 0, 0⟩
    rotationInverseMat := Mat3.identity
    localY := ⟨1, 0, 0⟩
    desiredAltitude0 := some 1000
    integralTerm := 0, dt := 0.01, mass := 0.4, gravityY := -9.81 }

end Simulation

namespace Multicopter

theorem Vec3.zero_add_vec (a : Vec3) : Vec3.add Vec3.zero a = a := by
  simp [Vec3.add, Vec3.zero]

theorem Vec3.sub_zero_vec (a : Vec3) : a - Vec3.zero = a := by
  simp [Vec3.sub_def, Vec3.zero]

/-- C1: `state_derivative` fails with the invalid-input-length condition
exactly when the control-input vector's length differs from the number of
propellers, and returns a successful result whenever the lengths agree. -/
theorem state_derivative_invalid_length_iff (m : Copter) (rot : Mat3)
    (av : Vec3) (inputs : List ℝ) (ef et : Vec3) :
    (state_derivative m rot av inputs ef et = .error "Incorrect control input length"
        ↔ inputs.length ≠ m.propellers.length)
      ∧ ((state_derivative m rot av inputs ef et).isOk = true
        ↔ inputs.length = m.propellers.length) := by
  unfold state_derivative
  split
  · next h => simp [h, Except.isOk, Except.toBool]
  · next h =>
      rw [not_ne_iff] at h
      simp [h, Except.isOk, Except.toBool]

/-- C8 counterexample: `Multicopter::new` performs no invertibility check —
construction with the (singular) zero inertia matrix succeeds and yields a
vehicle object, against the claim that it fails with
`DegenerateConstruction`. -/
theorem new_accepts_singular_inertia :
    Mat3.det Mat3.zero = 0 ∧
    (new Mat3.zero 1 [(⟨⟨0, 0, 0⟩, ⟨0, 1, 0⟩, 1, 1⟩ : PropellerInfo)]).isOk = true := by
  constructor
  · norm_num [Mat3.det, Mat3.zero]
  · rfl

/-- C8 (amended): construction fails (an assertion panic, fatal at
construction time) on an empty propeller list, producing no vehicle object,
and succeeds on every non-empty propeller list regardless of the inertia
tensor — no invertibility check is performed. -/
theorem new_ok_iff_nonempty (inertia : Mat3) (mass : ℝ)
    (props : List PropellerInfo) :
    ((new inertia mass props).isOk = true ↔ props ≠ [])
      ∧ (props = [] →
        new inertia mass props = .error "panic: Don't try to simulate a 0-copter") := by
  unfold new
  cases props <;> simp [Except.isOk, Except.toBool]

/-- Witness for C8's amended theorem at the empty propeller list. -/
theorem new_ok_iff_nonempty_witness :
    new Mat3.identity 1 ([] : List PropellerInfo) =
      .error "panic: Don't try to simulate a 0-copter" :=
  (new_ok_iff_nonempty Mat3.identity 1 []).2 rfl

theorem propForce_zero (p : PropellerInfo) : propForce p 0 = Vec3.zero := by
  norm_num [propForce, Vec3.smul_def, Vec3.zero]

theorem propTorqueTerm_zero (p : PropellerInfo) :
    propTorqueTerm p (propForce p 0) 0 = Vec3.zero := by
  norm_num [propTorqueTerm, propForce, Vec3.smul_def, Vec3.cross,
    Vec3.addScalar, Vec3.zero]

theorem netThrust_zero_inputs (props : List PropellerInfo) :
    ∀ inputs : List ℝ, (∀ x ∈ inputs, x = 0) →
      netThrust props inputs = Vec3.zero := by
  induction props with
  | nil => intro inputs _; rfl
  | cons p ps ih =>
    intro inputs hz
    cases inputs with
    | nil => rfl
    | cons i is =>
      have hi : i = 0 := hz i (by simp)
      have : netThrust (p :: ps) (i :: is) =
          Vec3.add (propForce p i) (netThrust ps is) := rfl
      rw [this, hi, propForce_zero, Vec3.zero_add_vec]
      exact ih is fun x hx => hz x (by simp [hx])

theorem netPropTorque_zero_inputs (props : List PropellerInfo) :
    ∀ inputs : List ℝ, (∀ x ∈ inputs, x = 0) →
      netPropTorque props inputs = Vec3.zero := by
  induction props with
  | nil => intro inputs _; rfl
  | cons p ps ih =>
    intro inputs hz
    cases inputs with
    | nil => rfl
    | cons i is =>
      have hi : i = 0 := hz i (by simp)
      have : netPropTorque (p :: ps) (i :: is) =
          Vec3.add (propTorqueTerm p (propForce p i) i) (netPropTorque ps is) := rfl
      rw [this, hi, propTorqueTerm_zero, Vec3.zero_add_vec]
      exact ih is fun x hx => hz x (by simp [hx])

/-- C4: for every non-empty propeller list, when every commanded spin rate
is zero (and whatever the angular velocity, which the net thrust and net
propeller torque do not read), both the net thrust vector and the net
propeller torque computed inside `state_derivative` are exactly zero. -/
theorem net_thrust_and_torque_zero_at_rest (props : List PropellerInfo)
    (inputs : List ℝ) (_hne : props ≠ []) (hz : ∀ x ∈ inputs, x = 0) :
    netThrust props inputs = Vec3.zero ∧
    netPropTorque props inputs = Vec3.zero :=
  ⟨netThrust_zero_inputs props inputs hz, netPropTorque_zero_inputs props inputs hz⟩

/-- Witness for C4 at a concrete single-rotor vehicle with a zero command. -/
theorem net_thrust_and_torque_zero_at_rest_witness :
    ([(⟨⟨1, 2, 3⟩, ⟨0, 1, 0⟩, 2, 3⟩ : PropellerInfo)] ≠ []) ∧
    (netThrust [(⟨⟨1, 2, 3⟩, ⟨0, 1, 0⟩, 2, 3⟩ : PropellerInfo)] [0] = Vec3.zero ∧
      netPropTorque [(⟨⟨1, 2, 3⟩, ⟨0, 1, 0⟩, 2, 3⟩ : PropellerInfo)] [0] = Vec3.zero) :=
  ⟨by simp,
    net_thrust_and_torque_zero_at_rest _ _ (by simp) (by simp)⟩

/-- C3 (modelled from the spec, the signed drag torque being absent from
src/src/lib.rs): a rotor's drag reaction torque has magnitude
`drag_constant * ω²` and carries the sign of its rotation direction, so
flipping the rotation direction, all else equal, flips the sign of the
contribution. -/
theorem reaction_torque_signed_magnitude (d : RotationDirection)
    (drag_constant omega : ℝ) (hk : 0 ≤ drag_constant) :
    |reactionTorque d drag_constant omega| = drag_constant * omega ^ 2 ∧
    reactionTorque d.flip drag_constant omega =
      -reactionTorque d drag_constant omega := by
  have habs : |drag_constant * omega ^ 2| = drag_constant * omega ^ 2 :=
    abs_of_nonneg (mul_nonneg hk (sq_nonneg omega))
  cases d <;>
    simp [reactionTorque, RotationDirection.sign, RotationDirection.flip,
      abs_mul, habs]

/-- Witness for C3 at the simulation's drag constant and a concrete rate. -/
theorem reaction_torque_signed_magnitude_witness :
    (0 ≤ (Simulation.DRAG_CONSTANT : ℝ)) ∧
    (|reactionTorque .counterClockWise Simulation.DRAG_CONSTANT 3| =
        Simulation.DRAG_CONSTANT * 3 ^ 2 ∧
      reactionTorque RotationDirection.counterClockWise.flip
          Simulation.DRAG_CONSTANT 3 =
        -reactionTorque .counterClockWise Simulation.DRAG_CONSTANT 3) :=
  ⟨by norm_num [Simulation.DRAG_CONSTANT],
    reaction_torque_signed_magnitude _ _ _
      (by norm_num [Simulation.DRAG_CONSTANT])⟩

/-- C5: the gyroscopic coupling term ω × (I·ω) inside `state_derivative`
is the zero vector whenever the angular velocity ω is zero or the inertia
tensor I is a scalar multiple of the identity, and in those cases the
successful output carries no contribution from the term. -/
theorem gyro_term_vanishes (m : Copter) (rot : Mat3) (av : Vec3)
    (inputs : List ℝ) (ef et : Vec3)
    (h : av = Vec3.zero ∨ ∃ c, m.inertia = Mat3.smul c Mat3.identity) :
    gyroTerm m.inertia av = Vec3.zero ∧
    (inputs.length = m.propellers.length →
      state_derivative m rot av inputs ef et = .ok
        { acceleration := m.inverse_mass •
            (ef + rot.mulVec (netThrust m.propellers inputs))
          angular_acceleration := m.inertia.inverse.mulVec
            (et + rot.mulVec (netPropTorque m.propellers inputs)) }) := by
  have hg : gyroTerm m.inertia av = Vec3.zero := by
    rcases h with h | ⟨c, hI⟩
    · subst h
      norm_num [gyroTerm, Mat3.mulVec, Vec3.cross, Vec3.zero]
    · rw [hI]
      simp only [gyroTerm, Mat3.mulVec, Mat3.smul, Mat3.identity, Vec3.cross,
        Vec3.zero, Vec3.mk.injEq]
      refine ⟨by ring, by ring, by ring⟩
  refine ⟨hg, fun hlen => ?_⟩
  unfold state_derivative
  rw [if_neg (not_ne_iff.mpr hlen), hg, Vec3.sub_zero_vec]

/-- Witness for C5 at a concrete isotropic vehicle and non-zero angular
velocity. -/
theorem gyro_term_vanishes_witness :
    ((⟨1, 2, 3⟩ : Vec3) = Vec3.zero ∨
      ∃ c, Simulation.isotropicCopter.inertia = Mat3.smul c Mat3.identity) ∧
    (gyroTerm Simulation.isotropicCopter.inertia ⟨1, 2, 3⟩ = Vec3.zero ∧
      (([2] : List ℝ).length = Simulation.isotropicCopter.propellers.length →
        state_derivative Simulation.isotropicCopter Mat3.identity ⟨1, 2, 3⟩
            [2] ⟨0, 0, 1⟩ Vec3.zero = .ok
          { acceleration := Simulation.isotropicCopter.inverse_mass •
              ((⟨0, 0, 1⟩ : Vec3) + Mat3.identity.mulVec
                (netThrust Simulation.isotropicCopter.propellers [2]))
            angular_acceleration := Simulation.isotropicCopter.inertia.inverse.mulVec
              (Vec3.zero + Mat3.identity.mulVec
                (netPropTorque Simulation.isotropicCopter.propellers [2])) })) :=
  ⟨Or.inr ⟨2, rfl⟩,
    gyro_term_vanishes Simulation.isotropicCopter Mat3.identity ⟨1, 2, 3⟩
      [2] ⟨0, 0, 1⟩ Vec3.zero (Or.inr ⟨2, rfl⟩)⟩

end Multicopter

namespace Simulation

/-- C7: whenever the tilt coefficient (the dot product of the body up axis
with world up) is at or below the 1e-2 cutoff, or the desired vertical
thrust is negative, the controller's needed vertical thrust is exactly
zero, however large the PID output. -/
theorem needed_vertical_thrust_cutoff (s : ControlState)
    (h : verticalThrustCoeff s ≤ 1e-2 ∨ desiredVerticalThrust s < 0) :
    neededVerticalThrust s = 0 := by
  unfold neededVerticalThrust neededVerticalThrustFrom
  rw [if_pos h]

/-- Witness for C7: a sideways vehicle whose PID output is a large positive
number still gets zero needed vertical thrust. -/
theorem needed_vertical_thrust_cutoff_witness :
    (verticalThrustCoeff sidewaysState ≤ 1e-2 ∨
      desiredVerticalThrust sidewaysState < 0) ∧
    neededVerticalThrust sidewaysState = 0 :=
  ⟨Or.inl (by norm_num [verticalThrustCoeff, sidewaysState, Multicopter.Vec3.dot]),
    needed_vertical_thrust_cutoff _
      (Or.inl (by norm_num [verticalThrustCoeff, sidewaysState, Multicopter.Vec3.dot]))⟩

theorem reductionFor_pos (x : ℝ) : 0 < reductionFor x := by
  unfold reductionFor
  split
  · next h =>
      rw [div_pos_iff]
      right
      constructor <;> linarith
  · norm_num

theorem reductionFor_le_one (x : ℝ) : reductionFor x ≤ 1 := by
  unfold reductionFor
  split
  · next h =>
      rw [div_le_one_iff]
      right; right
      constructor <;> linarith
  · norm_num

theorem reductionFor_eq_of_lt {x : ℝ} (h : x < -0.25) :
    reductionFor x = -0.25 / x := by
  unfold reductionFor
  rw [if_pos h]

theorem reductionFor_lt_one_of_lt {x : ℝ} (h : x < -0.25) :
    reductionFor x < 1 := by
  rw [reductionFor_eq_of_lt h, div_lt_one_iff]
  right; right
  constructor <;> linarith

theorem mul_reductionFor_ge (x : ℝ) : -0.25 ≤ x * reductionFor x := by
  unfold reductionFor
  split
  · next h =>
      have hx : x ≠ 0 := by intro h0; rw [h0] at h; norm_num at h
      rw [mul_comm, div_mul_cancel₀ _ hx]
  · next h =>
      push_neg at h
      rw [mul_one]
      linarith

theorem mul_le_of_reduction {x r : ℝ} (hr0 : 0 < r)
    (hrle : r ≤ reductionFor x) : -0.25 ≤ x * r := by
  rcases le_or_lt 0 x with hx | hx
  · nlinarith [mul_nonneg hx hr0.le]
  · have h1 : x * reductionFor x ≤ x * r := mul_le_mul_of_nonpos_left hrle hx.le
    linarith [mul_reductionFor_ge x]

theorem reductionFactor_le_one (p : Fin 4 → ℝ) : reductionFactor p ≤ 1 := by
  unfold reductionFactor
  exact le_trans (min_le_left _ _) (le_trans (min_le_left _ _)
    (le_trans (min_le_left _ _) (min_le_left _ _)))

theorem reductionFactor_pos (p : Fin 4 → ℝ) : 0 < reductionFactor p := by
  unfold reductionFactor
  exact lt_min (lt_min (lt_min (lt_min one_pos (reductionFor_pos _))
    (reductionFor_pos _)) (reductionFor_pos _)) (reductionFor_pos _)

theorem reductionFactor_le (p : Fin 4 → ℝ) (i : Fin 4) :
    reductionFactor p ≤ reductionFor (p i) := by
  unfold reductionFactor
  fin_cases i
  · exact le_trans (min_le_left _ _) (le_trans (min_le_left _ _)
      (le_trans (min_le_left _ _) (min_le_right _ _)))
  · exact le_trans (min_le_left _ _) (le_trans (min_le_left _ _) (min_le_right _ _))
  · exact le_trans (min_le_left _ _) (min_le_right _ _)
  · exact min_le_right _ _

theorem scaledProportions_nonneg (p : Fin 4 → ℝ) (i : Fin 4) :
    0 ≤ scaledProportions p i := by
  unfold scaledProportions
  have := mul_le_of_reduction (reductionFactor_pos p) (reductionFactor_le p i)
  linarith

theorem reductionFactor_achieved (p : Fin 4 → ℝ) :
    reductionFactor p = 1 ∨ ∃ i, reductionFactor p = reductionFor (p i) := by
  unfold reductionFactor
  rcases min_choice (min (min (min 1 (reductionFor (p 0))) (reductionFor (p 1)))
      (reductionFor (p 2))) (reductionFor (p 3)) with h3 | h3
  · rw [h3]
    rcases min_choice (min (min 1 (reductionFor (p 0))) (reductionFor (p 1)))
        (reductionFor (p 2)) with h2 | h2
    · rw [h2]
      rcases min_choice (min 1 (reductionFor (p 0))) (reductionFor (p 1)) with h1 | h1
      · rw [h1]
        rcases min_choice 1 (reductionFor (p 0)) with h0 | h0
        · rw [h0]; exact Or.inl rfl
        · rw [h0]; exact Or.inr ⟨0, rfl⟩
      · rw [h1]; exact Or.inr ⟨1, rfl⟩
    · rw [h2]; exact Or.inr ⟨2, rfl⟩
  · rw [h3]; exact Or.inr ⟨3, rfl⟩

/-- C6: when some raw mixed proportion falls below −0.25, the shared
reduction factor is at most 1, is the minimum over the saturated rotors of
−0.25/proportion (it bounds each and is attained at one), every
post-baseline output proportion is non-negative, and every torque-derived
offset is the raw proportion scaled by that one shared factor. -/
theorem saturation_preserving_scaling (p : Fin 4 → ℝ)
    (h : ∃ i, p i < -0.25) :
    reductionFactor p ≤ 1 ∧
    (∀ j, p j < -0.25 → reductionFactor p ≤ -0.25 / p j) ∧
    (∃ i, p i < -0.25 ∧ reductionFactor p = -0.25 / p i) ∧
    (∀ i, 0 ≤ scaledProportions p i) ∧
    (∀ i, scaledProportions p i - 0.25 = p i * reductionFactor p) := by
  obtain ⟨i0, hi0⟩ := h
  have hlt1 : reductionFactor p < 1 :=
    lt_of_le_of_lt (reductionFactor_le p i0) (reductionFor_lt_one_of_lt hi0)
  refine ⟨reductionFactor_le_one p, ?_, ?_, scaledProportions_nonneg p,
    fun i => by unfold scaledProportions; ring⟩
  · intro j hj
    have := reductionFactor_le p j
    rwa [reductionFor_eq_of_lt hj] at this
  · rcases reductionFactor_achieved p with h1 | ⟨i, hi⟩
    · exact absurd h1 (by linarith)
    · by_cases hpi : p i < -0.25
      · exact ⟨i, hpi, by rwa [reductionFor_eq_of_lt hpi] at hi⟩
      · exfalso
        have hone : reductionFor (p i) = 1 := by
          unfold reductionFor
          rw [if_neg hpi]
        rw [hone] at hi
        linarith

/-- Witness for C6 at the proportion vector (−0.5, 0.1, 0, 0). -/
theorem saturation_preserving_scaling_witness :
    (∃ i, satProps i < -0.25) ∧
    (reductionFactor satProps ≤ 1 ∧
      (∀ j, satProps j < -0.25 → reductionFactor satProps ≤ -0.25 / satProps j) ∧
      (∃ i, satProps i < -0.25 ∧ reductionFactor satProps = -0.25 / satProps i) ∧
      (∀ i, 0 ≤ scaledProportions satProps i) ∧
      (∀ i, scaledProportions satProps i - 0.25 = satProps i * reductionFactor satProps)) :=
  ⟨⟨0, by norm_num [satProps]⟩,
    saturation_preserving_scaling satProps ⟨0, by norm_num [satProps]⟩⟩

/-- C9: every spin-rate command emitted by `control_quadcopter` is
non-negative, for every input state and key combination: the needed
vertical thrust is non-negative, the rotation rate is a square root and
thus non-negative, every post-saturation proportion is non-negative, and
each command is the product of the latter two. -/
theorem commands_nonneg (s : ControlState) :
    0 ≤ neededVerticalThrust s ∧
    0 ≤ necessaryPropellerRotationRate s ∧
    (∀ i, 0 ≤ scaledProportions (rawProportions s) i) ∧
    (∀ i, 0 ≤ commands s i) := by
  have h1 : 0 ≤ neededVerticalThrust s := by
    unfold neededVerticalThrust neededVerticalThrustFrom
    split
    · exact le_refl 0
    · next h =>
        push_neg at h
        exact div_nonneg h.2 (by linarith [h.1])
  have h2 : 0 ≤ necessaryPropellerRotationRate s := Real.sqrt_nonneg _
  exact ⟨h1, h2, scaledProportions_nonneg _,
    fun i => mul_nonneg h2 (scaledProportions_nonneg _ i)⟩

/-- C10: the altitude-hold integral accumulator never influences the
emitted commands — two controller runs whose inputs differ only in the
stored accumulator produce identical command vectors — while the
accumulator itself is still advanced by dt times the altitude error. -/
theorem integral_term_unobservable (s : ControlState) (a b : ℝ) :
    commands { s with integralTerm := a } = commands { s with integralTerm := b } ∧
    newIntegralTerm s = s.integralTerm + s.dt * (adjustedDesiredAltitude s - s.altitude) := by
  constructor
  · funext i
    simp only [commands, necessaryPropellerRotationRate, neededVerticalThrust,
      neededVerticalThrustFrom, verticalThrustCoeff, desiredVerticalThrust,
      vertical_i_gain, newIntegralTerm, adjustedDesiredAltitude, scaledProportions,
      rawProportions, reductionFactor, reductionFor, desiredPitchTorque,
      desiredYawTorque, desiredRollTorque, angularVelocityDifference,
      bodyAngularVelocity, desiredPitch, desiredRoll, desiredYawRate, zero_mul]
  · rfl

open Multicopter in
/-- C2 (evaluation at the failing input): for the 4-rotor vehicle of
`setup` at rest, level, with all four rotors at the hover spin rate, the
net thrust is exactly (0, mass·g, 0) — the force half of the claim holds —
but the net propeller torque is (0.3924, 0.3924, 0.3924) N·m, far from the
zero vector: having no rotation-direction sign, `state_derivative` adds
every rotor's drag torque `drag_constant * ω²` as a positive scalar to all
three torque components, so the four contributions add up instead of
cancelling.  Accordingly the returned derivatives are an acceleration of
(0, 9.81, 0) and an angular acceleration of (39.24, 39.24, 39.24). -/
theorem hover_scenario_torque_not_zero :
    quadMass * gravityMag = 3.924 ∧
    netThrust hoverPropellers hoverInputs = ⟨0, 3.924, 0⟩ ∧
    netPropTorque hoverPropellers hoverInputs = ⟨0.3924, 0.3924, 0.3924⟩ ∧
    (⟨0.3924, 0.3924, 0.3924⟩ : Vec3) ≠ Vec3.zero ∧
    state_derivative hoverCopter Mat3.identity Vec3.zero hoverInputs
        Vec3.zero Vec3.zero =
      .ok ⟨⟨0, 9.81, 0⟩, ⟨39.24, 39.24, 39.24⟩⟩ := by
  have hΩ : hoverOmega ^ 2 = 981000 := by
    rw [hoverOmega, quadMass, gravityMag, THRUST_CONSTANT,
      Real.sq_sqrt (by norm_num)]
    norm_num
  refine ⟨by norm_num [quadMass, gravityMag], ?_, ?_, ?_, ?_⟩
  · simp only [netThrust, hoverPropellers, hoverInputs, propForces, propForce,
      THRUST_CONSTANT, List.zip_cons_cons, List.zip_nil_right, List.map_cons,
      List.map_nil, Vec3.lsum, List.foldr_cons, List.foldr_nil, Vec3.smul_def,
      Vec3.add, Vec3.zero, hΩ]
    norm_num
  · simp only [netPropTorque, netThrust, hoverPropellers, hoverInputs,
      propForces, propForce, propTorqueTerm, THRUST_CONSTANT, DRAG_CONSTANT,
      List.zip_cons_cons, List.zip_nil_right, List.map_cons, List.map_nil,
      Vec3.lsum, List.foldr_cons, List.foldr_nil, Vec3.smul_def, Vec3.cross,
      Vec3.addScalar, Vec3.add, Vec3.zero, hΩ]
    norm_num
  · simp only [Vec3.zero, ne_eq, Vec3.mk.injEq, not_and]
    norm_num
  · have hlen : hoverInputs.length = hoverCopter.propellers.length := by
      simp [hoverInputs, hoverCopter, hoverPropellers]
    unfold state_derivative
    rw [if_neg (not_ne_iff.mpr hlen)]
    simp only [hoverCopter, hoverPropellers, hoverInputs, quadMass,
      THRUST_CONSTANT, DRAG_CONSTANT, netThrust, netPropTorque, propForces,
      propForce, propTorqueTerm, Vec3.lsum, List.zip_cons_cons,
      List.zip_nil_right, List.map_cons, List.map_nil, List.foldr_cons,
      List.foldr_nil, Vec3.smul_def, Vec3.add_def, Vec3.add, Vec3.sub_def,
      Vec3.cross, Vec3.addScalar, Vec3.zero, gyroTerm, Mat3.mulVec,
      Mat3.inverse, Mat3.det, Mat3.smul, Mat3.identity, hΩ, Except.ok.injEq]
    norm_num [QuadcopterDerivatives.mk.injEq, Vec3.mk.injEq]

end Simulation

end
